import Mathlib

/-!
Verification of the stock-ledger and production-transaction subsystem of the
tenebrio_farm backend.

The shallow embedding below models the database state as explicit lists of
rows.  Quantities (kilograms) are modelled as rationals.  Functions taken
directly from the repository source (`app/routers/items_stock.py`) keep their
source names; parts of the repository whose source files are not available
(the `crud` helpers and the production coordinator in
`app/routers/production.py`, which are only exercised by the tests) are
modelled from the specification and marked as such in their doc comments.
-/

namespace TenebrioFarm

/-- Move type of a stock movement: the closed set {in, out}. -/
inductive MoveType where
  | «in»
  | out
deriving DecidableEq, Repr, BEq

/-- A StockMove row: item reference, move type, quantity in kg, a free-form
provenance tag (ref_type/ref_id), a note and a creation timestamp. -/
structure StockMove where
  item_id : Nat
  move_type : MoveType
  qty_kg : ℚ
  ref_type : String
  ref_id : String
  note : String
  created_at : Nat
deriving DecidableEq, Repr

/-- A Pallet row (static reference data): it belongs to a Room and a
BatchMonth and carries a tray count used as a feed multiplier. -/
structure Pallet where
  id : Nat
  code : String
  room_id : Nat
  batch_month_id : Nat
  tray_count : Nat
deriving DecidableEq, Repr

/-- A ProductionTask row: calendar day, name, responsible, minutes, location,
note, and the pallets associated with it. -/
structure ProductionTask where
  id : Nat
  day : Nat × Nat × Nat
  name : String
  responsible : String
  minutes : Int
  location : String
  note : String
  pallet_ids : List Nat
deriving DecidableEq, Repr

/-- A FeedEvent row: task, pallet, consumed item and quantity in kg. -/
structure FeedEvent where
  task_id : Nat
  pallet_id : Nat
  item_id : Nat
  qty_kg : ℚ
deriving DecidableEq, Repr

/-- The optional output record (frass / larvae totals) of a production task. -/
structure HarvestOutput where
  task_id : Nat
  frass_kg : Option ℚ
  larvae_total_kg : Option ℚ
deriving DecidableEq, Repr

/-- The database state: lists of rows per table.  Pallets are read-only
reference data; the other tables are written by the operations below. -/
structure DB where
  pallets : List Pallet
  moves : List StockMove
  tasks : List ProductionTask
  feedEvents : List FeedEvent
  outputs : List HarvestOutput
deriving DecidableEq, Repr

/-- Signed contribution of one move to its item's balance:
`in` counts positively, `out` negatively. -/
def signedQty (m : StockMove) : ℚ :=
  match m.move_type with
  | MoveType.«in» => m.qty_kg
  | MoveType.out => -m.qty_kg

/-- Modelled from the spec: `crud.get_stock_qty` (the `crud` module is not in
the available sources).  Per §4.1 it derives the ledger balance of an item as
the sum over all recorded moves for the item, `in` minus `out`, with no side
effects (here: a pure function of the state). -/
def get_stock_qty (db : DB) (item_id : Nat) : ℚ :=
  ((db.moves.filter fun m => m.item_id == item_id).map signedQty).sum

/-- Modelled from the spec: `crud.add_stock_move` (§4.1 `record_move`):
appends a new move to the ledger inside the caller's active transaction. -/
def add_stock_move (db : DB) (m : StockMove) : DB :=
  { db with moves := db.moves ++ [m] }

/-- Sum of the `in` quantities recorded for an item. -/
def sum_in (db : DB) (item_id : Nat) : ℚ :=
  ((db.moves.filter fun m =>
      m.item_id == item_id && m.move_type == MoveType.«in»).map StockMove.qty_kg).sum

/-- Sum of the `out` quantities recorded for an item. -/
def sum_out (db : DB) (item_id : Nat) : ℚ :=
  ((db.moves.filter fun m =>
      m.item_id == item_id && m.move_type == MoveType.out).map StockMove.qty_kg).sum

/-- The request payload of the direct stock-move creation endpoint
(`schemas.StockMoveCreate`). -/
structure StockMoveCreate where
  item_id : Nat
  move_type : MoveType
  qty_kg : ℚ
  ref_type : String
  ref_id : String
  note : String
deriving DecidableEq, Repr

/-- An HTTP error response, as raised by the router. -/
structure HTTPException where
  status_code : Nat
  detail : String
deriving DecidableEq, Repr

/-- The StockMove row built from a creation payload
(`models.StockMove(**payload.model_dump())`), stamped with the creation
time supplied by the store. -/
def payloadMove (p : StockMoveCreate) (now : Nat) : StockMove :=
  { item_id := p.item_id, move_type := p.move_type, qty_kg := p.qty_kg,
    ref_type := p.ref_type, ref_id := p.ref_id, note := p.note, created_at := now }

/-- From `app/routers/items_stock.py`, `create_stock_move`: for `out` moves it
first checks the derived balance and rejects with HTTP 400 reporting the
current balance when `current < payload.qty_kg`; otherwise it persists the
move via `crud.add_stock_move`. -/
def create_stock_move (db : DB) (payload : StockMoveCreate) (now : Nat) :
    Except HTTPException DB :=
  if payload.move_type = MoveType.out ∧ get_stock_qty db payload.item_id < payload.qty_kg then
    Except.error (HTTPException.mk 400
      ("Not enough stock. Current=" ++ toString (get_stock_qty db payload.item_id) ++ " kg"))
  else
    Except.ok (add_stock_move db (payloadMove payload now))

/-- From `app/routers/items_stock.py`, `list_stock_moves`: all StockMove rows
ordered by `created_at` descending. -/
def list_stock_moves (db : DB) : List StockMove :=
  db.moves.mergeSort fun a b => decide (b.created_at ≤ a.created_at)

/-- Splits a character list on the dash character (used by the day parser). -/
def splitDash : List Char → List Char → List (List Char)
  | [], cur => [cur.reverse]
  | c :: rest, cur =>
      if c = '-' then cur.reverse :: splitDash rest []
      else splitDash rest (c :: cur)

/-- Parses a non-empty all-digit character list as a natural number. -/
def digitsToNat? (cs : List Char) : Option Nat :=
  if cs.isEmpty then none
  else cs.foldl
    (fun acc c => acc.bind fun n =>
      if c.isDigit then some (n * 10 + (c.toNat - 48)) else none)
    (some 0)

/-- Whether a year is a leap year (Gregorian rule). -/
def isLeapYear (y : Nat) : Bool :=
  (y % 4 == 0 && y % 100 != 0) || y % 400 == 0

/-- Number of days in a month of a given year. -/
def daysInMonth (y m : Nat) : Nat :=
  if m == 2 then (if isLeapYear y then 29 else 28)
  else if m == 4 || m == 6 || m == 9 || m == 11 then 30
  else 31

/-- Modelled from the spec: the strict day parsing of the production
coordinator (`app/routers/production.py` is not in the available sources).
Per §4.3, `day` is a `YYYY-MM-DD` calendar date string; malformed or
out-of-range dates (e.g. day 31 of a 28-day month) do not raise but are
detected here. -/
def parseDay (s : String) : Option (Nat × Nat × Nat) :=
  match (splitDash s.data []).map digitsToNat? with
  | [some y, some m, some d] =>
      if 1 ≤ y ∧ 1 ≤ m ∧ m ≤ 12 ∧ 1 ≤ d ∧ d ≤ daysInMonth y m then some (y, m, d)
      else none
  | _ => none

/-- Modelled from the spec: the lenient parse-or-default integer coercion used
for optional numeric fields such as `minutes` (§4.3 step 2, §9): blank or
invalid input yields 0, never a hard failure. -/
def parseIntOrZero (s : String) : Int :=
  match s.data with
  | '-' :: rest =>
      match digitsToNat? rest with
      | some n => -(Int.ofNat n)
      | none => 0
  | cs =>
      match digitsToNat? cs with
      | some n => Int.ofNat n
      | none => 0

/-- The structured failure returned by the production coordinator:
a pre-transaction validation failure or an in-transaction operational
failure (rolled back), per §4.4. -/
inductive Failure where
  | validation (msg : String)
  | operational (msg : String)
deriving DecidableEq, Repr

/-- Looks up a pallet row by identifier. -/
def findPallet (db : DB) (pid : Nat) : Option Pallet :=
  db.pallets.find? fun p => p.id == pid

/-- Tray count of a pallet, 0 when the pallet does not exist. -/
def trayCountOf (db : DB) (pid : Nat) : Nat :=
  ((findPallet db pid).map Pallet.tray_count).getD 0

/-- The `out` StockMove staged for one feed-consumption leg: it references
the feed item and carries the provenance tag ("production", task id). -/
def feedOutMove (item_id : Nat) (qty : ℚ) (task_id : Nat) : StockMove :=
  { item_id := item_id, move_type := MoveType.out, qty_kg := qty,
    ref_type := "production", ref_id := toString task_id, note := "", created_at := 0 }

/-- Modelled from the spec: the per-pallet legs of one feed selection
(§4.3 step 5).  For each pallet: consumed quantity = quantity-per-tray ×
tray count; stage a FeedEvent then an `out` StockMove via `addMove`, which
receives the 1-based index of the `add_stock_move` call so a faulty
persistence layer can be modelled.  Returns the staged state and the next
call index, or the raised fault. -/
def legsForSelection (addMove : Nat → StockMove → DB → Except String DB)
    (item_id : Nat) (rate : ℚ) (task_id : Nat) :
    List Nat → Nat → DB → Except String (DB × Nat)
  | [], k, db => Except.ok (db, k)
  | pid :: rest, k, db =>
      match findPallet db pid with
      | none => Except.error ("pallet " ++ toString pid ++ " not found")
      | some p =>
          let qty : ℚ := rate * (p.tray_count : ℚ)
          let db1 := { db with feedEvents := db.feedEvents ++
            [{ task_id := task_id, pallet_id := pid, item_id := item_id, qty_kg := qty }] }
          match addMove k (feedOutMove item_id qty task_id) db1 with
          | Except.error e => Except.error e
          | Except.ok db2 => legsForSelection addMove item_id rate task_id rest (k + 1) db2

/-- Modelled from the spec: the loop over the non-empty feed selections
(§4.3 step 5), threading the state and the `add_stock_move` call index. -/
def feedLegs (addMove : Nat → StockMove → DB → Except String DB) (task_id : Nat) :
    List (Nat × ℚ) → List Nat → Nat → DB → Except String (DB × Nat)
  | [], _, k, db => Except.ok (db, k)
  | (item_id, rate) :: rest, pids, k, db =>
      match legsForSelection addMove item_id rate task_id pids k db with
      | Except.error e => Except.error e
      | Except.ok (db1, k1) => feedLegs addMove task_id rest pids k1 db1

/-- The normally-behaving persistence layer: every `add_stock_move` call
appends the move. -/
def realAddMove : Nat → StockMove → DB → Except String DB :=
  fun _ m db => Except.ok (add_stock_move db m)

/-- A persistence layer that raises on its `failOn`-th `add_stock_move` call,
as the integration test's patched `crud.add_stock_move` does. -/
def failingAddMove (failOn : Nat) : Nat → StockMove → DB → Except String DB :=
  fun k m db =>
    if k = failOn then Except.error "forced stock failure"
    else Except.ok (add_stock_move db m)

/-- Modelled from the spec: the production transaction coordinator
`record_production` (`app/routers/production.py` is not in the available
sources).  §4.3: (1) parse and validate `day`, returning a validation failure
before any write on malformed input; (2) leniently coerce `minutes`;
(3–6) inside one transaction create the ProductionTask associated with the
pallets, stage the feed legs (FeedEvent + `out` StockMove per non-empty
selection per pallet), and the optional output record; (7) commit;
(8) on any fault roll the whole transaction back — the pre-call state is
returned unchanged — and return a structured "PRO failed: <cause>" failure.
A selection with zero quantity counts as "no selection".  The persistence
layer is passed in as `addMove` so faults can be injected. -/
def record_production (addMove : Nat → StockMove → DB → Except String DB)
    (day task_name responsible minutes location note : String)
    (feed_selections : List (Nat × ℚ)) (pallet_ids : List Nat)
    (frass_kg larvae_total_kg : Option ℚ) (db : DB) : DB × Except Failure Nat :=
  match parseDay day with
  | none => (db, Except.error (Failure.validation "Fecha inválida"))
  | some d =>
      let mins : Int := parseIntOrZero minutes
      let task_id := db.tasks.length + 1
      let task : ProductionTask :=
        { id := task_id, day := d, name := task_name, responsible := responsible,
          minutes := mins, location := location, note := note, pallet_ids := pallet_ids }
      let db1 := { db with tasks := db.tasks ++ [task] }
      let active := feed_selections.filter fun s => s.2 != 0
      match feedLegs addMove task_id active pallet_ids 1 db1 with
      | Except.error cause =>
          (db, Except.error (Failure.operational ("PRO failed: " ++ cause)))
      | Except.ok (db2, _) =>
          let db3 :=
            if frass_kg.isSome || larvae_total_kg.isSome then
              { db2 with outputs := db2.outputs ++
                [{ task_id := task_id, frass_kg := frass_kg, larvae_total_kg := larvae_total_kg }] }
            else db2
          (db3, Except.ok task_id)

/-- Decidable equality for `Except` results with decidable components,
so that concrete runs of the operations can be checked by evaluation. -/
instance {e : Type} {a : Type} [DecidableEq e] [DecidableEq a] :
    DecidableEq (Except e a) := fun x y =>
  match x, y with
  | Except.error u, Except.error v =>
      if h : u = v then Decidable.isTrue (by rw [h])
      else Decidable.isFalse (by intro hc; cases hc; exact h rfl)
  | Except.error _, Except.ok _ => Decidable.isFalse (by intro hc; cases hc)
  | Except.ok _, Except.error _ => Decidable.isFalse (by intro hc; cases hc)
  | Except.ok u, Except.ok v =>
      if h : u = v then Decidable.isTrue (by rw [h])
      else Decidable.isFalse (by intro hc; cases hc; exact h rfl)

/-- The seed `in` move of the integration-test scenario: 100 kg of the feed
item (item 1), provenance "purchase"/"init". -/
def seedMove : StockMove :=
  { item_id := 1, move_type := MoveType.«in», qty_kg := 100,
    ref_type := "purchase", ref_id := "init", note := "seed", created_at := 1 }

/-- The integration-test scenario state: two pallets with tray counts 10 and
8, one feed item (item 1) seeded with a single 100 kg `in` move, and no
production rows. -/
def scenarioDB : DB :=
  { pallets := [{ id := 1, code := "PAL-001", room_id := 1, batch_month_id := 1, tray_count := 10 },
                { id := 2, code := "PAL-002", room_id := 1, batch_month_id := 1, tray_count := 8 }],
    moves := [seedMove], tasks := [], feedEvents := [], outputs := [] }

/-- A state in which the feed item holds only 10 kg while the single pallet
has 100 trays, so a 1 kg/tray production run overdraws the stock. -/
def overdraftDB : DB :=
  { pallets := [{ id := 1, code := "PAL-001", room_id := 1, batch_month_id := 1, tray_count := 100 }],
    moves := [{ item_id := 1, move_type := MoveType.«in», qty_kg := 10,
                ref_type := "purchase", ref_id := "init", note := "", created_at := 1 }],
    tasks := [], feedEvents := [], outputs := [] }

/-- The FeedEvent staged for pallet `pid` of a selection of `item` at `rate`,
in state `db`. -/
def stagedFeedEvent (db : DB) (item : Nat) (rate : ℚ) (task_id pid : Nat) : FeedEvent :=
  { task_id := task_id, pallet_id := pid, item_id := item,
    qty_kg := rate * (trayCountOf db pid : ℚ) }

/-- The `out` StockMove staged for pallet `pid` of a selection of `item` at
`rate`, in state `db`. -/
def stagedOutMove (db : DB) (item : Nat) (rate : ℚ) (task_id pid : Nat) : StockMove :=
  feedOutMove item (rate * (trayCountOf db pid : ℚ)) task_id

/-! ### Helper lemmas -/

/-- Appending one move shifts the balance by that move's signed quantity when
the item matches, and leaves it unchanged otherwise. -/
theorem get_stock_qty_add_stock_move (db : DB) (m : StockMove) (i : Nat) :
    get_stock_qty (add_stock_move db m) i =
      get_stock_qty db i + (if m.item_id = i then signedQty m else 0) := by
  by_cases h : m.item_id = i <;>
    simp [get_stock_qty, add_stock_move, List.filter_append, List.filter_cons, h]

/-- List-level form of the balance: the signed sum splits into the sum of the
`in` quantities minus the sum of the `out` quantities. -/
theorem signed_sum_split (l : List StockMove) (i : Nat) :
    ((l.filter fun m => m.item_id == i).map signedQty).sum =
      ((l.filter fun m =>
          m.item_id == i && m.move_type == MoveType.«in»).map StockMove.qty_kg).sum -
      ((l.filter fun m =>
          m.item_id == i && m.move_type == MoveType.out).map StockMove.qty_kg).sum := by
  induction l with
  | nil => simp
  | cons m rest ih =>
      by_cases hi : m.item_id = i
      · cases hmt : m.move_type <;>
          simp [List.filter_cons, hi, hmt, signedQty, ih,
            show (MoveType.«in» == MoveType.«in») = true from rfl,
            show (MoveType.«in» == MoveType.out) = false from rfl,
            show (MoveType.out == MoveType.«in») = false from rfl,
            show (MoveType.out == MoveType.out) = true from rfl] <;> ring
      · simp [List.filter_cons, hi, ih]

theorem legsForSelection_realAddMove (item : Nat) (rate : ℚ) (task_id : Nat)
    (pids : List Nat) : ∀ (k : Nat) (db : DB),
    (∀ pid ∈ pids, (findPallet db pid).isSome) →
    legsForSelection realAddMove item rate task_id pids k db =
      Except.ok ({ db with
        feedEvents := db.feedEvents ++ pids.map (stagedFeedEvent db item rate task_id),
        moves := db.moves ++ pids.map (stagedOutMove db item rate task_id) },
        k + pids.length) := by
  induction pids with
  | nil => intro k db _; simp [legsForSelection]
  | cons pid rest ih =>
      intro k db hp
      obtain ⟨p, hfp⟩ := Option.isSome_iff_exists.mp (hp pid (by simp))
      have htc : ((trayCountOf db pid : Nat) : ℚ) = ((p.tray_count : Nat) : ℚ) := by
        simp [trayCountOf, hfp]
      have hrec := ih (k + 1)
        { db with
          feedEvents := db.feedEvents ++ [stagedFeedEvent db item rate task_id pid],
          moves := db.moves ++ [stagedOutMove db item rate task_id pid] }
        (fun q hq => hp q (List.mem_cons_of_mem _ hq))
      simp only [legsForSelection, hfp, realAddMove, add_stock_move]
      rw [← htc]
      simp only [stagedFeedEvent, stagedOutMove] at hrec
      rw [hrec]
      simp only [Except.ok.injEq, Prod.mk.injEq]
      constructor
      · simp [stagedFeedEvent, stagedOutMove, List.append_assoc, trayCountOf, findPallet]
      · simp only [List.length_cons]
        omega

/-- Success path of the coordinator with one active feed selection: the call
commits one new ProductionTask and appends exactly one FeedEvent and one
`out` StockMove per pallet, each with quantity rate × tray count. -/
theorem record_production_single_selection
    (day tn r mi lo no : String) (item : Nat) (rate : ℚ) (pids : List Nat)
    (f l : Option ℚ) (db : DB) (d : Nat × Nat × Nat)
    (hd : parseDay day = some d) (hr : rate ≠ 0)
    (hp : ∀ pid ∈ pids, (findPallet db pid).isSome) :
    ∃ db2, record_production realAddMove day tn r mi lo no [(item, rate)] pids f l db
        = (db2, Except.ok (db.tasks.length + 1)) ∧
      db2.feedEvents = db.feedEvents ++
        pids.map (stagedFeedEvent db item rate (db.tasks.length + 1)) ∧
      db2.moves = db.moves ++
        pids.map (stagedOutMove db item rate (db.tasks.length + 1)) ∧
      db2.tasks.length = db.tasks.length + 1 := by
  have hrb : (rate != 0) = true := bne_iff_ne.mpr hr
  have hlegs := legsForSelection_realAddMove item rate (db.tasks.length + 1) pids 1
    { db with tasks := db.tasks ++
        [{ id := db.tasks.length + 1, day := d, name := tn, responsible := r,
           minutes := parseIntOrZero mi, location := lo, note := no, pallet_ids := pids }] }
    hp
  by_cases ho : f.isSome || l.isSome <;>
    simp [record_production, hd, feedLegs, hrb, hlegs, ho, stagedFeedEvent,
      stagedOutMove, trayCountOf, findPallet]

/-- Every run of the coordinator has one of three shapes: a pre-transaction
validation failure returning the state unchanged, an operational failure with
a "PRO failed: <cause>" message returning the state unchanged (rollback), or
a success returning a new state and the created task identity. -/
theorem record_production_shape (addMove : Nat → StockMove → DB → Except String DB)
    (day tn r mi lo no : String) (fs : List (Nat × ℚ)) (ps : List Nat)
    (f l : Option ℚ) (db : DB) :
    record_production addMove day tn r mi lo no fs ps f l db =
        (db, Except.error (Failure.validation "Fecha inválida")) ∨
    (∃ cause, record_production addMove day tn r mi lo no fs ps f l db =
        (db, Except.error (Failure.operational ("PRO failed: " ++ cause)))) ∨
    (∃ db2 tid, record_production addMove day tn r mi lo no fs ps f l db =
        (db2, Except.ok tid)) := by
  unfold record_production
  cases hd : parseDay day with
  | none => simp [hd]
  | some d =>
      simp only [hd]
      split
      · next cause _ => exact Or.inr (Or.inl ⟨cause, rfl⟩)
      · next db2 k _ => exact Or.inr (Or.inr ⟨_, _, rfl⟩)

/-! ### Claim theorems -/

/-- C1: whenever a fault is raised during the transactional sequence after
some feed legs have been staged, the whole transaction is rolled back — the
returned state is exactly the pre-call state — and the call returns a
structured "PRO failed: <cause>" message instead of propagating the fault.
In the integration-test scenario (seeded 100 kg, two pallets, the second
`add_stock_move` call raising), the result is the unchanged seed state:
zero ProductionTask rows, zero FeedEvent rows, and the StockMove count is
still 1. -/
theorem rollback_on_fault_during_transaction
    (addMove : Nat → StockMove → DB → Except String DB)
    (day tn r mi lo no : String) (fs : List (Nat × ℚ)) (ps : List Nat)
    (f l : Option ℚ) (db : DB) (e : String)
    (h : (record_production addMove day tn r mi lo no fs ps f l db).2 =
      Except.error (Failure.operational e)) :
    ((record_production addMove day tn r mi lo no fs ps f l db).1 = db ∧
     ∃ cause, e = "PRO failed: " ++ cause) ∧
    (record_production (failingAddMove 2) "2026-02-10" "Alimentación" "" "0" "" ""
        [(1, 1)] [1, 2] none none scenarioDB =
      (scenarioDB, Except.error (Failure.operational "PRO failed: forced stock failure")) ∧
     scenarioDB.tasks.length = 0 ∧ scenarioDB.feedEvents.length = 0 ∧
     scenarioDB.moves.length = 1) := by
  constructor
  · rcases record_production_shape addMove day tn r mi lo no fs ps f l db with
      h1 | ⟨cause, h1⟩ | ⟨db2, tid, h1⟩
    · rw [h1] at h; simp at h
    · rw [h1] at h ⊢
      simp only [Except.error.injEq, Failure.operational.injEq] at h
      exact ⟨rfl, cause, h.symm⟩
    · rw [h1] at h; simp at h
  · refine ⟨by with_unfolding_all decide, rfl, rfl, rfl⟩

/-- Witness for C1 at the integration-test input: the second of two feed
legs raises, and the call reports the operational failure with the
pre-call state returned. -/
theorem rollback_on_fault_during_transaction_witness :
    (record_production (failingAddMove 2) "2026-02-10" "Alimentación" "" "0" "" ""
        [(1, 1)] [1, 2] none none scenarioDB).2 =
      Except.error (Failure.operational "PRO failed: forced stock failure") ∧
    (record_production (failingAddMove 2) "2026-02-10" "Alimentación" "" "0" "" ""
        [(1, 1)] [1, 2] none none scenarioDB).1 = scenarioDB :=
  ⟨by with_unfolding_all decide,
   (rollback_on_fault_during_transaction (failingAddMove 2) "2026-02-10" "Alimentación"
      "" "0" "" "" [(1, 1)] [1, 2] none none scenarioDB
      "PRO failed: forced stock failure" (by with_unfolding_all decide)).1.1⟩

/-- C2: a `record_production` call whose day does not parse to a valid
calendar date returns a structured validation failure before any write —
the state is returned unchanged, so no ProductionTask, FeedEvent or
StockMove row from the invocation exists afterwards. -/
theorem invalid_day_rejected_before_any_write
    (addMove : Nat → StockMove → DB → Except String DB)
    (day tn r mi lo no : String) (fs : List (Nat × ℚ)) (ps : List Nat)
    (f l : Option ℚ) (db : DB) (h : parseDay day = none) :
    record_production addMove day tn r mi lo no fs ps f l db =
      (db, Except.error (Failure.validation "Fecha inválida")) := by
  simp [record_production, h]

/-- Witness for C2 at the integration test's invalid day "2026-02-31". -/
theorem invalid_day_rejected_before_any_write_witness :
    parseDay "2026-02-31" = none ∧
    record_production realAddMove "2026-02-31" "Alimentación" "" "0" "" ""
        [] [1, 2] none none scenarioDB =
      (scenarioDB, Except.error (Failure.validation "Fecha inválida")) :=
  ⟨by decide,
   invalid_day_rejected_before_any_write realAddMove "2026-02-31" "Alimentación"
     "" "0" "" "" [] [1, 2] none none scenarioDB (by decide)⟩

/-- C3: a direct stock-move creation with move type `out` whose quantity
exceeds the current derived balance fails with HTTP 400 reporting the
current balance, and no StockMove row is persisted (the operation returns
the error instead of a new state). -/
theorem insufficient_out_rejected (db : DB) (p : StockMoveCreate) (now : Nat)
    (h1 : p.move_type = MoveType.out)
    (h2 : get_stock_qty db p.item_id < p.qty_kg) :
    create_stock_move db p now = Except.error (HTTPException.mk 400
      ("Not enough stock. Current=" ++ toString (get_stock_qty db p.item_id) ++ " kg")) := by
  simp [create_stock_move, h1, h2]

/-- Witness for C3: requesting 150 kg out of the 100 kg scenario stock. -/
theorem insufficient_out_rejected_witness :
    get_stock_qty scenarioDB 1 < 150 ∧
    create_stock_move scenarioDB (StockMoveCreate.mk 1 MoveType.out 150 "manual" "w" "") 5 =
      Except.error (HTTPException.mk 400
        ("Not enough stock. Current=" ++ toString (get_stock_qty scenarioDB 1) ++ " kg")) :=
  ⟨by with_unfolding_all decide,
   insufficient_out_rejected scenarioDB (StockMoveCreate.mk 1 MoveType.out 150 "manual" "w" "")
     5 rfl (by with_unfolding_all decide)⟩

/-- C7: the balance of an item with no recorded moves is 0.  `get_stock_qty`
is a pure function of the state, so it has no side effects by
construction. -/
theorem get_balance_zero_without_moves (db : DB) (i : Nat)
    (h : ∀ m ∈ db.moves, m.item_id ≠ i) :
    get_stock_qty db i = 0 := by
  have hf : db.moves.filter (fun m => m.item_id == i) = [] :=
    List.filter_eq_nil_iff.mpr (fun m hm => by simpa using h m hm)
  simp [get_stock_qty, hf]

/-- Witness for C7: item 2 has no moves in the scenario state. -/
theorem get_balance_zero_without_moves_witness :
    (∀ m ∈ scenarioDB.moves, m.item_id ≠ 2) ∧ get_stock_qty scenarioDB 2 = 0 :=
  ⟨by decide, get_balance_zero_without_moves scenarioDB 2 (by decide)⟩

/-- C10: the stock-move listing returns a permutation of all recorded moves,
sorted by creation timestamp in descending order (newest first). -/
theorem list_stock_moves_newest_first (db : DB) :
    (list_stock_moves db).Perm db.moves ∧
    (list_stock_moves db).Pairwise (fun a b => b.created_at ≤ a.created_at) := by
  constructor
  · exact List.mergeSort_perm db.moves _
  · refine List.Pairwise.imp ?_ (List.sorted_mergeSort ?_ ?_ db.moves)
    · intro a b hab
      simpa using hab
    · intro a b c hab hbc
      simp only [decide_eq_true_eq] at hab hbc ⊢
      omega
    · intro a b
      simp only [Bool.or_eq_true, decide_eq_true_eq]
      omega

/-- C4 counterexample: the coordinator stages `out` moves without consulting
the Movement Guard, so a successful `record_production` can drive the balance
negative.  With 10 kg in stock and one pallet of 100 trays at 1 kg/tray the
call succeeds and the committed balance is -90 < 0, refuting the claim for
the coordinator path. -/
theorem coordinator_can_overdraw :
    (record_production realAddMove "2026-02-10" "Alimentación" "" "0" "" ""
        [(1, 1)] [1] none none overdraftDB).2 = Except.ok 1 ∧
    get_stock_qty (record_production realAddMove "2026-02-10" "Alimentación" "" "0" "" ""
        [(1, 1)] [1] none none overdraftDB).1 1 = -90 := by
  with_unfolding_all decide

/-- C4 (amended): after a successful write through the direct stock-move
entry point, the affected item's derived balance is still nonnegative — the
guard guarantees this at the single-move API boundary; the production
coordinator performs no per-leg balance check, so the invariant does not
extend to it. -/
theorem direct_entry_preserves_nonneg (db : DB) (p : StockMoveCreate) (now : Nat)
    (db2 : DB) (hq : 0 ≤ p.qty_kg) (hb : 0 ≤ get_stock_qty db p.item_id)
    (h : create_stock_move db p now = Except.ok db2) :
    0 ≤ get_stock_qty db2 p.item_id := by
  by_cases hcond : p.move_type = MoveType.out ∧ get_stock_qty db p.item_id < p.qty_kg
  · simp [create_stock_move, hcond] at h
  · simp only [create_stock_move, if_neg hcond, Except.ok.injEq] at h
    rw [← h, get_stock_qty_add_stock_move]
    simp only [payloadMove]
    cases hmt : p.move_type with
    | «in» =>
        simp only [if_pos rfl, signedQty]
        exact add_nonneg hb hq
    | out =>
        have hle : p.qty_kg ≤ get_stock_qty db p.item_id := by
          by_contra hlt
          exact hcond ⟨hmt, lt_of_not_le hlt⟩
        simp [signedQty, hmt]
        linarith

/-- Witness for C4 (amended): drawing 30 kg out of the 100 kg scenario
stock leaves a nonnegative balance. -/
theorem direct_entry_preserves_nonneg_witness :
    (0 : ℚ) ≤ 30 ∧ 0 ≤ get_stock_qty scenarioDB 1 ∧
    0 ≤ get_stock_qty
      (add_stock_move scenarioDB
        (payloadMove (StockMoveCreate.mk 1 MoveType.out 30 "manual" "w" "") 5)) 1 :=
  ⟨by norm_num, by with_unfolding_all decide,
   direct_entry_preserves_nonneg scenarioDB (StockMoveCreate.mk 1 MoveType.out 30 "manual" "w" "")
     5 _ (by norm_num) (by with_unfolding_all decide) (by with_unfolding_all decide)⟩

/-- C5: with one active feed selection of `rate` kg per tray, a successful
call creates one ProductionTask and, per pallet, one FeedEvent and one `out`
StockMove of quantity rate × tray count; in the integration-test scenario
(100 kg seeded, pallets of 10 and 8 trays, 1 kg/tray) the call returns task
1, creates one task row, two FeedEvents of 10 kg and 8 kg, two `out` moves
totaling 18 kg, and leaves a balance of 82 kg. -/
theorem production_feed_per_pallet
    (day tn r mi lo no : String) (item : Nat) (rate : ℚ) (pids : List Nat)
    (f l : Option ℚ) (db : DB) (d : Nat × Nat × Nat)
    (hd : parseDay day = some d) (hr : rate ≠ 0)
    (hp : ∀ pid ∈ pids, (findPallet db pid).isSome) :
    (∃ db2, record_production realAddMove day tn r mi lo no [(item, rate)] pids f l db
        = (db2, Except.ok (db.tasks.length + 1)) ∧
      db2.feedEvents = db.feedEvents ++
        pids.map (stagedFeedEvent db item rate (db.tasks.length + 1)) ∧
      db2.moves = db.moves ++
        pids.map (stagedOutMove db item rate (db.tasks.length + 1)) ∧
      db2.tasks.length = db.tasks.length + 1) ∧
    ((record_production realAddMove "2026-02-10" "Alimentación" "" "0" "" ""
        [(1, 1)] [1, 2] none none scenarioDB).2 = Except.ok 1 ∧
     (record_production realAddMove "2026-02-10" "Alimentación" "" "0" "" ""
        [(1, 1)] [1, 2] none none scenarioDB).1.tasks.length = 1 ∧
     (record_production realAddMove "2026-02-10" "Alimentación" "" "0" "" ""
        [(1, 1)] [1, 2] none none scenarioDB).1.feedEvents.map FeedEvent.qty_kg = [10, 8] ∧
     (record_production realAddMove "2026-02-10" "Alimentación" "" "0" "" ""
        [(1, 1)] [1, 2] none none scenarioDB).1.moves.length = 3 ∧
     (((record_production realAddMove "2026-02-10" "Alimentación" "" "0" "" ""
        [(1, 1)] [1, 2] none none scenarioDB).1.moves.filter
          (fun m => m.move_type == MoveType.out)).map StockMove.qty_kg).sum = 18 ∧
     get_stock_qty (record_production realAddMove "2026-02-10" "Alimentación" "" "0" "" ""
        [(1, 1)] [1, 2] none none scenarioDB).1 1 = 82) := by
  refine ⟨record_production_single_selection day tn r mi lo no item rate pids f l db d hd hr hp,
    ?_, ?_, ?_, ?_, ?_, ?_⟩ <;> with_unfolding_all decide

/-- Witness for C5 at the integration-test scenario inputs. -/
theorem production_feed_per_pallet_witness :
    parseDay "2026-02-10" = some (2026, 2, 10) ∧ (1 : ℚ) ≠ 0 ∧
    (∃ db2, record_production realAddMove "2026-02-10" "Alimentación" "" "0" "" ""
        [(1, 1)] [1, 2] none none scenarioDB
        = (db2, Except.ok (scenarioDB.tasks.length + 1)) ∧
      db2.feedEvents = scenarioDB.feedEvents ++
        [1, 2].map (stagedFeedEvent scenarioDB 1 1 (scenarioDB.tasks.length + 1)) ∧
      db2.moves = scenarioDB.moves ++
        [1, 2].map (stagedOutMove scenarioDB 1 1 (scenarioDB.tasks.length + 1)) ∧
      db2.tasks.length = scenarioDB.tasks.length + 1) :=
  ⟨by decide, by norm_num,
   (production_feed_per_pallet "2026-02-10" "Alimentación" "" "0" "" "" 1 1 [1, 2]
     none none scenarioDB (2026, 2, 10) (by decide) (by norm_num) (by decide)).1⟩

/-- C6: the derived balance equals the sum of the `in` quantities minus the
sum of the `out` quantities, and it is invariant under permutation of the
order in which the moves were recorded. -/
theorem get_balance_in_minus_out_perm_invariant (db db2 : DB) (i : Nat)
    (h : db.moves.Perm db2.moves) :
    get_stock_qty db i = sum_in db i - sum_out db i ∧
    get_stock_qty db i = get_stock_qty db2 i := by
  constructor
  · exact signed_sum_split db.moves i
  · exact List.Perm.sum_eq (List.Perm.map _ (List.Perm.filter _ h))

/-- Witness for C6: recording the seed `in` move and an `out` move in either
order yields the same balance. -/
theorem get_balance_in_minus_out_perm_invariant_witness :
    (DB.mk [] [seedMove, feedOutMove 1 40 1] [] [] []).moves.Perm
      (DB.mk [] [feedOutMove 1 40 1, seedMove] [] [] []).moves ∧
    get_stock_qty (DB.mk [] [seedMove, feedOutMove 1 40 1] [] [] []) 1 =
      sum_in (DB.mk [] [seedMove, feedOutMove 1 40 1] [] [] []) 1 -
      sum_out (DB.mk [] [seedMove, feedOutMove 1 40 1] [] [] []) 1 ∧
    get_stock_qty (DB.mk [] [seedMove, feedOutMove 1 40 1] [] [] []) 1 =
      get_stock_qty (DB.mk [] [feedOutMove 1 40 1, seedMove] [] [] []) 1 :=
  ⟨List.Perm.swap (feedOutMove 1 40 1) seedMove [],
   (get_balance_in_minus_out_perm_invariant
      (DB.mk [] [seedMove, feedOutMove 1 40 1] [] [] [])
      (DB.mk [] [feedOutMove 1 40 1, seedMove] [] [] []) 1
      (List.Perm.swap (feedOutMove 1 40 1) seedMove [])).1,
   (get_balance_in_minus_out_perm_invariant
      (DB.mk [] [seedMove, feedOutMove 1 40 1] [] [] [])
      (DB.mk [] [feedOutMove 1 40 1, seedMove] [] [] []) 1
      (List.Perm.swap (feedOutMove 1 40 1) seedMove [])).2⟩

/-- C8: the minutes input is leniently coerced — blank or non-integer input
becomes 0 and never causes a failure: with a valid day the call never
returns a validation failure, whatever the minutes string; a malformed day
remains a strict validation failure. -/
theorem minutes_lenient_day_strict
    (addMove : Nat → StockMove → DB → Except String DB)
    (day tn r mi lo no : String) (fs : List (Nat × ℚ)) (ps : List Nat)
    (f l : Option ℚ) (db : DB) (d : Nat × Nat × Nat) :
    parseIntOrZero "" = 0 ∧
    parseIntOrZero "abc" = 0 ∧
    (parseDay day = none →
      record_production addMove day tn r mi lo no fs ps f l db =
        (db, Except.error (Failure.validation "Fecha inválida"))) ∧
    (parseDay day = some d → ∀ msg,
      (record_production addMove day tn r mi lo no fs ps f l db).2 ≠
        Except.error (Failure.validation msg)) := by
  refine ⟨rfl, rfl, fun h => by simp [record_production, h], fun h msg => ?_⟩
  simp only [record_production, h]
  split
  · simp
  · simp

/-- Witness for C8: an invalid minutes string "abc" does not prevent the call
from proceeding on a valid day. -/
theorem minutes_lenient_day_strict_witness :
    parseIntOrZero "" = 0 ∧ parseIntOrZero "abc" = 0 ∧
    parseDay "2026-02-10" = some (2026, 2, 10) ∧
    (record_production realAddMove "2026-02-10" "Alimentación" "" "abc" "" ""
        [] [] none none scenarioDB).2 ≠
      Except.error (Failure.validation "Fecha inválida") :=
  ⟨rfl, rfl, by decide,
   (minutes_lenient_day_strict realAddMove "2026-02-10" "Alimentación" "" "abc" "" ""
     [] [] none none scenarioDB (2026, 2, 10)).2.2.2 (by decide) "Fecha inválida"⟩

/-- C9: the direct entry point's insufficiency check is strict — it fails
exactly when current balance < requested quantity; an `out` move equal to the
balance succeeds and drives the balance to exactly 0, and `in` moves are
persisted without any balance check. -/
theorem create_stock_move_guard_boundary (db : DB) (p : StockMoveCreate) (now : Nat) :
    ((∃ db2, create_stock_move db p now = Except.ok db2) ↔
      ¬(p.move_type = MoveType.out ∧ get_stock_qty db p.item_id < p.qty_kg)) ∧
    (p.move_type = MoveType.out → p.qty_kg = get_stock_qty db p.item_id →
      create_stock_move db p now = Except.ok (add_stock_move db (payloadMove p now)) ∧
      get_stock_qty (add_stock_move db (payloadMove p now)) p.item_id = 0) ∧
    (p.move_type = MoveType.«in» →
      create_stock_move db p now = Except.ok (add_stock_move db (payloadMove p now))) := by
  refine ⟨⟨?_, ?_⟩, fun hmt hq => ⟨?_, ?_⟩, fun hmt => ?_⟩
  · rintro ⟨db2, hdb2⟩ hcond
    simp [create_stock_move, hcond] at hdb2
  · intro hcond
    exact ⟨add_stock_move db (payloadMove p now), by simp [create_stock_move, hcond]⟩
  · have hcond : ¬(p.move_type = MoveType.out ∧ get_stock_qty db p.item_id < p.qty_kg) := by
      rintro ⟨_, hlt⟩
      rw [hq] at hlt
      exact lt_irrefl _ hlt
    simp [create_stock_move, hcond]
  · rw [get_stock_qty_add_stock_move]
    simp [payloadMove, signedQty, hmt, hq]
  · have hcond : ¬(p.move_type = MoveType.out ∧ get_stock_qty db p.item_id < p.qty_kg) := by
      rw [hmt]
      rintro ⟨hc, _⟩
      cases hc
    simp [create_stock_move, hcond]

/-- Witness for C9: drawing exactly the 100 kg balance succeeds and leaves a
balance of 0. -/
theorem create_stock_move_guard_boundary_witness :
    create_stock_move scenarioDB (StockMoveCreate.mk 1 MoveType.out 100 "manual" "w" "") 5 =
      Except.ok (add_stock_move scenarioDB
        (payloadMove (StockMoveCreate.mk 1 MoveType.out 100 "manual" "w" "") 5)) ∧
    get_stock_qty (add_stock_move scenarioDB
      (payloadMove (StockMoveCreate.mk 1 MoveType.out 100 "manual" "w" "") 5)) 1 = 0 :=
  (create_stock_move_guard_boundary scenarioDB
    (StockMoveCreate.mk 1 MoveType.out 100 "manual" "w" "") 5).2.1 rfl
    (by with_unfolding_all decide)

end TenebrioFarm
